import Mathlib

/-!
Verification of the progress/achievement tracking core of the AIcoach
repository (file enhanced_progress_tracking.py), as a shallow embedding.

The SQLite database is modelled as explicit lists of rows kept in rowid
(insertion) order.  Timestamps are a logical clock: each top-level operation
reads the current clock for CURRENT_TIMESTAMP and the clock advances by one
at the end of the operation, so later operations carry strictly later
timestamps.

A key schema fact drives the semantics: the detailed_progress table is
created with only an AUTOINCREMENT primary key and no UNIQUE constraint on
(user_id, skill_name).  Hence the INSERT OR REPLACE statements in
log_learning_session and update_course_progress never find a conflicting
row and always behave as plain INSERTs of a fresh row.  The scalar subquery
in log_learning_session (SELECT time_spent_minutes ... WHERE user_id = ?
AND skill_name = ?) returns the value of the first matching row in rowid
order, and COALESCE turns an empty result into 0.
-/

namespace AIcoach

/-- A row of the detailed_progress table.  Columns absent from an INSERT
column list take their schema defaults: course_name, completion_date and
the notes column default to NULL, progress_percentage and
time_spent_minutes default to 0. -/
structure ProgressRecord where
  rid : Nat
  user_id : String
  skill_name : String
  course_name : Option String
  progress_percentage : Int
  time_spent_minutes : Int
  last_activity : Nat
  completion_date : Option Nat
  note : Option String
deriving DecidableEq

/-- A row of the learning_sessions table. -/
structure SessionRow where
  rid : Nat
  user_id : String
  skill_name : String
  session_date : Nat
  minutes_studied : Int
  note : String
  created_at : Nat
deriving DecidableEq

/-- A row of the achievements table. -/
structure AchievementRow where
  rid : Nat
  user_id : String
  achievement_type : String
  achievement_name : String
  description : String
  earned_date : Nat
deriving DecidableEq

/-- A row of the learning_plans table (created elsewhere in the app).  Only
the columns read or written by update_course_progress are modelled, plus an
opaque rest field standing for all remaining columns, which the UPDATE
leaves untouched. -/
structure PlanRow where
  user_id : String
  skill_name : String
  status : String
  rest : String
deriving DecidableEq

/-- The database state: the four tables in rowid order, the next
AUTOINCREMENT ids, and the logical clock. -/
structure DB where
  detailed_progress : List ProgressRecord
  learning_sessions : List SessionRow
  achievements : List AchievementRow
  learning_plans : List PlanRow
  nextProgressId : Nat
  nextSessionId : Nat
  nextAchievementId : Nat
  clock : Nat
deriving DecidableEq

/-- A fresh database, as produced by update_learning_progress_database on
an empty file: all tables empty. -/
def initialDB : DB :=
  { detailed_progress := []
    learning_sessions := []
    achievements := []
    learning_plans := []
    nextProgressId := 1
    nextSessionId := 1
    nextAchievementId := 1
    clock := 0 }

/-- Insertion step for sorting in descending key order (used to model SQL
ORDER BY key DESC). -/
def insertByDesc {α : Type} (key : α → Nat) (x : α) : List α → List α
  | [] => [x]
  | y :: ys => if key y ≤ key x then x :: y :: ys else y :: insertByDesc key x ys

/-- Sort a list in descending key order, modelling SQL ORDER BY key DESC. -/
def sortByDesc {α : Type} (key : α → Nat) : List α → List α
  | [] => []
  | x :: xs => insertByDesc key x (sortByDesc key xs)

/-- The scalar subquery COALESCE((SELECT time_spent_minutes FROM
detailed_progress WHERE user_id = ? AND skill_name = ?), 0): the value of
the first matching row in rowid order, or 0 when there is none. -/
def prevMinutes (db : DB) (u s : String) : Int :=
  match (db.detailed_progress.filter
      (fun r => r.user_id == u && r.skill_name == s)).head? with
  | some r => r.time_spent_minutes
  | none => 0

/-- log_learning_session: insert a learning_sessions row, then INSERT OR
REPLACE a detailed_progress row carrying previous-plus-new minutes.  With
no UNIQUE constraint on (user_id, skill_name) the OR REPLACE clause never
fires, so both statements append fresh rows.  The function performs no
input validation. -/
def log_learning_session (db : DB) (user_id skill_name : String)
    (minutes_studied : Int) (note : String) : DB :=
  { db with
    learning_sessions := db.learning_sessions ++
      [{ rid := db.nextSessionId
         user_id := user_id
         skill_name := skill_name
         session_date := db.clock
         minutes_studied := minutes_studied
         note := note
         created_at := db.clock }]
    detailed_progress := db.detailed_progress ++
      [{ rid := db.nextProgressId
         user_id := user_id
         skill_name := skill_name
         course_name := none
         progress_percentage := 0
         time_spent_minutes := prevMinutes db user_id skill_name + minutes_studied
         last_activity := db.clock
         completion_date := none
         note := none }]
    nextSessionId := db.nextSessionId + 1
    nextProgressId := db.nextProgressId + 1
    clock := db.clock + 1 }

/-- The achievement name f-string "Completed {skill_name}". -/
def awardName (skill_name : String) : String := "Completed " ++ skill_name

/-- The WHERE clause of the achievement-existence check: user_id = ? AND
achievement_type = 'course_completion' AND achievement_name = ?. -/
def grantPred (u s : String) (a : AchievementRow) : Bool :=
  a.user_id == u && a.achievement_type == "course_completion" &&
    a.achievement_name == awardName s

/-- The achievements row inserted when the award is granted. -/
def awardRow (db : DB) (u s : String) : AchievementRow :=
  { rid := db.nextAchievementId
    user_id := u
    achievement_type := "course_completion"
    achievement_name := awardName s
    description := "Successfully completed " ++ s ++ " course"
    earned_date := db.clock }

/-- check_and_award_achievements: count matching achievements and insert
one exactly when the count is zero. -/
def check_and_award_achievements (db : DB) (user_id skill_name : String) : DB :=
  if (db.achievements.filter (grantPred user_id skill_name)).length = 0 then
    { db with
      achievements := db.achievements ++ [awardRow db user_id skill_name]
      nextAchievementId := db.nextAchievementId + 1 }
  else db

/-- The fresh detailed_progress row inserted by update_course_progress;
time_spent_minutes and completion_date take their schema defaults. -/
def newProgressRow (db : DB) (u s c : String) (p : Int) (note : String) :
    ProgressRecord :=
  { rid := db.nextProgressId
    user_id := u
    skill_name := s
    course_name := some c
    progress_percentage := p
    time_spent_minutes := 0
    last_activity := db.clock
    completion_date := none
    note := some note }

/-- One row's effect of the statement UPDATE detailed_progress SET
completion_date = CURRENT_TIMESTAMP WHERE user_id = ? AND skill_name = ?
AND course_name = ?.  The SQL comparison course_name = ? is false on a NULL
course_name, which the Option equality reproduces. -/
def stampCompletion (u s c : String) (t : Nat) (r : ProgressRecord) :
    ProgressRecord :=
  if r.user_id == u && r.skill_name == s && r.course_name == some c then
    { r with completion_date := some t }
  else r

/-- One row's effect of UPDATE learning_plans SET status = ? WHERE
user_id = ? AND skill_name = ?. -/
def setPlanStatus (u s st : String) (row : PlanRow) : PlanRow :=
  if row.user_id == u && row.skill_name == s then { row with status := st }
  else row

/-- The status string computed by the if/elif/else chain of
update_course_progress. -/
def deriveStatus (progress_percentage : Int) : String :=
  if progress_percentage ≥ 100 then "completed"
  else if progress_percentage > 0 then "in_progress"
  else "not_started"

/-- update_course_progress: INSERT OR REPLACE a fresh detailed_progress
row (again a plain append, see above); when the percentage reaches 100,
stamp completion_date on every matching row and run the achievement check;
finally write the derived status into every matching learning_plans row. -/
def update_course_progress (db : DB) (user_id skill_name course_name : String)
    (progress_percentage : Int) (note : String) : DB :=
  let db1 : DB :=
    { db with
      detailed_progress := db.detailed_progress ++
        [newProgressRow db user_id skill_name course_name progress_percentage note]
      nextProgressId := db.nextProgressId + 1 }
  let db2 : DB :=
    if progress_percentage ≥ 100 then
      check_and_award_achievements
        { db1 with
          detailed_progress := db1.detailed_progress.map
            (stampCompletion user_id skill_name course_name db.clock) }
        user_id skill_name
    else db1
  { db2 with
    learning_plans := db2.learning_plans.map
      (setPlanStatus user_id skill_name (deriveStatus progress_percentage))
    clock := db.clock + 1 }

/-- get_detailed_progress: the user's detailed_progress rows, most recent
last_activity first. -/
def get_detailed_progress (db : DB) (user_id : String) : List ProgressRecord :=
  sortByDesc (fun r => r.last_activity)
    (db.detailed_progress.filter (fun r => r.user_id == user_id))

/-- get_achievements: the user's achievements rows, most recent
earned_date first. -/
def get_achievements (db : DB) (user_id : String) : List AchievementRow :=
  sortByDesc (fun a => a.earned_date)
    (db.achievements.filter (fun a => a.user_id == user_id))

/-! Section: Basic lemmas about the descending sort -/

theorem mem_insertByDesc {α : Type} (key : α → Nat) (x : α) (l : List α) (z : α) :
    z ∈ insertByDesc key x l ↔ z = x ∨ z ∈ l := by
  induction l with
  | nil => simp [insertByDesc]
  | cons y ys ih =>
    rw [insertByDesc]
    split
    · simp [List.mem_cons]
    · simp only [List.mem_cons, ih]
      tauto

theorem sortByDesc_head_max {α : Type} (key : α → Nat) (l : List α) (hl : l ≠ []) :
    ∃ h t, sortByDesc key l = h :: t ∧ h ∈ l ∧ ∀ y ∈ l, key y ≤ key h := by
  induction l with
  | nil => exact absurd rfl hl
  | cons x xs ih =>
    cases xs with
    | nil =>
      refine ⟨x, [], rfl, List.mem_singleton.mpr rfl, ?_⟩
      intro y hy
      rw [List.mem_singleton.mp hy]
    | cons b bs =>
      obtain ⟨h, t, heq, hmem, hmax⟩ := ih (by simp)
      rw [sortByDesc, heq, insertByDesc]
      split
      case isTrue hc =>
        refine ⟨x, h :: t, rfl, List.mem_cons_self x (b :: bs), ?_⟩
        intro y hy
        rcases List.mem_cons.mp hy with hy1 | hy2
        · rw [hy1]
        · exact le_trans (hmax y hy2) hc
      case isFalse hc =>
        refine ⟨h, insertByDesc key x t, rfl, List.mem_cons_of_mem x hmem, ?_⟩
        intro y hy
        rcases List.mem_cons.mp hy with hy1 | hy2
        · rw [hy1]; omega
        · exact hmax y hy2

theorem sortByDesc_head_eq {α : Type} (key : α → Nat) (l : List α) (K : Nat)
    (P : α → Prop)
    (hub : ∀ y ∈ l, key y ≤ K) (hprop : ∀ y ∈ l, key y = K → P y)
    (hex : ∃ y ∈ l, key y = K) :
    ∃ h, (sortByDesc key l).head? = some h ∧ P h := by
  obtain ⟨y0, hy0, hk0⟩ := hex
  have hl : l ≠ [] := by
    intro e
    rw [e] at hy0
    exact List.not_mem_nil y0 hy0
  obtain ⟨h, t, heq, hmem, hmax⟩ := sortByDesc_head_max key l hl
  refine ⟨h, by rw [heq]; rfl, ?_⟩
  apply hprop h hmem
  have h1 : key h ≤ K := hub h hmem
  have h2 : K ≤ key h := hk0 ▸ hmax y0 hy0
  omega

/-! Section: Frame lemmas for the operations -/

theorem caa_detailed (db : DB) (u s : String) :
    (check_and_award_achievements db u s).detailed_progress =
      db.detailed_progress := by
  rw [check_and_award_achievements]
  split <;> rfl

theorem caa_sessions (db : DB) (u s : String) :
    (check_and_award_achievements db u s).learning_sessions =
      db.learning_sessions := by
  rw [check_and_award_achievements]
  split <;> rfl

theorem caa_plans (db : DB) (u s : String) :
    (check_and_award_achievements db u s).learning_plans =
      db.learning_plans := by
  rw [check_and_award_achievements]
  split <;> rfl

theorem stampCompletion_user (u s c : String) (t : Nat) (r : ProgressRecord) :
    (stampCompletion u s c t r).user_id = r.user_id := by
  rw [stampCompletion]
  split <;> rfl

theorem stampCompletion_skill (u s c : String) (t : Nat) (r : ProgressRecord) :
    (stampCompletion u s c t r).skill_name = r.skill_name := by
  rw [stampCompletion]
  split <;> rfl

theorem stampCompletion_course (u s c : String) (t : Nat) (r : ProgressRecord) :
    (stampCompletion u s c t r).course_name = r.course_name := by
  rw [stampCompletion]
  split <;> rfl

theorem stampCompletion_la (u s c : String) (t : Nat) (r : ProgressRecord) :
    (stampCompletion u s c t r).last_activity = r.last_activity := by
  rw [stampCompletion]
  split <;> rfl

theorem stampCompletion_pct (u s c : String) (t : Nat) (r : ProgressRecord) :
    (stampCompletion u s c t r).progress_percentage = r.progress_percentage := by
  rw [stampCompletion]
  split <;> rfl

theorem ucp_clock (db : DB) (u s c : String) (p : Int) (n : String) :
    (update_course_progress db u s c p n).clock = db.clock + 1 := rfl

theorem ucp_detailed (db : DB) (u s c : String) (p : Int) (n : String) :
    (update_course_progress db u s c p n).detailed_progress =
      if p ≥ 100 then
        (db.detailed_progress ++ [newProgressRow db u s c p n]).map
          (stampCompletion u s c db.clock)
      else db.detailed_progress ++ [newProgressRow db u s c p n] := by
  by_cases hp : p ≥ 100 <;>
    simp only [update_course_progress, hp, if_true, if_false, caa_detailed]

theorem ucp_sessions (db : DB) (u s c : String) (p : Int) (n : String) :
    (update_course_progress db u s c p n).learning_sessions =
      db.learning_sessions := by
  by_cases hp : p ≥ 100 <;>
    simp only [update_course_progress, hp, if_true, if_false, caa_sessions]

theorem ucp_plans (db : DB) (u s c : String) (p : Int) (n : String) :
    (update_course_progress db u s c p n).learning_plans =
      db.learning_plans.map (setPlanStatus u s (deriveStatus p)) := by
  by_cases hp : p ≥ 100 <;>
    simp only [update_course_progress, hp, if_true, if_false, caa_plans]

theorem ucp_achievements_lt (db : DB) (u s c : String) (p : Int) (n : String)
    (hp : p < 100) :
    (update_course_progress db u s c p n).achievements = db.achievements := by
  have hp2 : ¬ p ≥ 100 := by omega
  simp only [update_course_progress, hp2, if_false]

/-! Section: The clock-freshness invariant: every stored row is older than now -/

def clockFresh (db : DB) : Prop :=
  ∀ r ∈ db.detailed_progress, r.last_activity < db.clock

theorem clockFresh_initial : clockFresh initialDB := by
  intro r hr
  exact absurd hr (List.not_mem_nil r)

theorem clockFresh_ucp (db : DB) (u s c : String) (p : Int) (n : String)
    (h : clockFresh db) : clockFresh (update_course_progress db u s c p n) := by
  intro r hr
  rw [ucp_clock]
  rw [ucp_detailed] at hr
  split at hr
  · obtain ⟨x, hx, rfl⟩ := List.mem_map.mp hr
    rw [stampCompletion_la]
    rcases List.mem_append.mp hx with hx1 | hx2
    · exact Nat.lt_succ_of_lt (h x hx1)
    · rw [List.mem_singleton.mp hx2]
      exact Nat.lt_succ_self db.clock
  · rcases List.mem_append.mp hr with hx1 | hx2
    · exact Nat.lt_succ_of_lt (h r hx1)
    · rw [List.mem_singleton.mp hx2]
      exact Nat.lt_succ_self db.clock

/-- The row inserted by update_course_progress: it belongs to the user,
carries the given percentage, and is stamped with the call time. -/
theorem ucp_new_row (db : DB) (u s c : String) (p : Int) (n : String) :
    ∃ r ∈ (update_course_progress db u s c p n).detailed_progress,
      r.user_id = u ∧ r.progress_percentage = p ∧ r.last_activity = db.clock := by
  rw [ucp_detailed]
  split
  · refine ⟨stampCompletion u s c db.clock (newProgressRow db u s c p n), ?_, ?_, ?_, ?_⟩
    · exact List.mem_map.mpr
        ⟨newProgressRow db u s c p n,
          List.mem_append_right _ (List.mem_singleton.mpr rfl), rfl⟩
    · rw [stampCompletion_user]
      rfl
    · rw [stampCompletion_pct]
      rfl
    · rw [stampCompletion_la]
      rfl
  · exact ⟨newProgressRow db u s c p n,
      List.mem_append_right _ (List.mem_singleton.mpr rfl), rfl, rfl, rfl⟩

/-- All rows visible after update_course_progress are at most as recent as
the call time. -/
theorem ucp_la_bound (db : DB) (u s c : String) (p : Int) (n : String)
    (h : clockFresh db) :
    ∀ r ∈ (update_course_progress db u s c p n).detailed_progress,
      r.last_activity ≤ db.clock := by
  intro r hr
  have h2 := clockFresh_ucp db u s c p n h r hr
  rw [ucp_clock] at h2
  omega

/-- The only row carrying the call time after update_course_progress is
the inserted one: it has the given percentage and user. -/
theorem ucp_la_top (db : DB) (u s c : String) (p : Int) (n : String)
    (h : clockFresh db) :
    ∀ r ∈ (update_course_progress db u s c p n).detailed_progress,
      r.last_activity = db.clock →
        r.progress_percentage = p ∧ r.user_id = u := by
  intro r hr hla
  rw [ucp_detailed] at hr
  split at hr
  · obtain ⟨x, hx, rfl⟩ := List.mem_map.mp hr
    rw [stampCompletion_la] at hla
    rw [stampCompletion_pct, stampCompletion_user]
    rcases List.mem_append.mp hx with hx1 | hx2
    · exact absurd hla (Nat.ne_of_lt (h x hx1))
    · rw [List.mem_singleton.mp hx2]
      exact ⟨rfl, rfl⟩
  · rcases List.mem_append.mp hr with hx1 | hx2
    · exact absurd hla (Nat.ne_of_lt (h r hx1))
    · rw [List.mem_singleton.mp hx2]
      exact ⟨rfl, rfl⟩

/-! Section: Scenario databases -/

/-- Database after logging 90 then 30 minutes for ("u1", "Python"). -/
def logTwice : DB :=
  log_learning_session (log_learning_session initialDB "u1" "Python" 90 "")
    "u1" "Python" 30 ""

/-- Database after logging 90, 30 and 10 minutes for ("u1", "Python"). -/
def logThrice : DB :=
  log_learning_session logTwice "u1" "Python" 10 ""

/-- Database after setting ("u1", "Python", "Intro") to 100 percent once. -/
def completeOnce : DB :=
  update_course_progress initialDB "u1" "Python" "Intro" 100 ""

/-- Database after setting ("u1", "Python", "Intro") to 100 percent twice. -/
def completeTwice : DB :=
  update_course_progress completeOnce "u1" "Python" "Intro" 100 ""

/-- The cumulative-minutes value observable for (user, skill) through the
query surface: the time_spent_minutes of the most-recently-active stored
record for that pair, as listed first by get_detailed_progress. -/
def observedMinutes (db : DB) (u s : String) : Option Int :=
  ((get_detailed_progress db u).filter (fun r => r.skill_name == s)).head?.map
    (fun r => r.time_spent_minutes)

/-! Section: The claims -/

/-- C1: refuted on the code.  After logging 90, 30 and 10 minutes for
("u1", "Python"), the reported records carry time_spent_minutes 100, 120
and 90 — no record equals the sum 130.  The third insert adds the oldest
row's 90 (the scalar subquery reads the first row in rowid order) instead
of the newest row's 120, because the INSERT OR REPLACE never replaces:
detailed_progress has no UNIQUE constraint on (user_id, skill_name). -/
theorem C1_cumulative_minutes_bug :
    (get_detailed_progress logThrice "u1").map (fun r => r.time_spent_minutes) =
      [100, 120, 90] ∧
    ∀ r ∈ get_detailed_progress logThrice "u1",
      r.time_spent_minutes ≠ 90 + 30 + 10 := by
  decide

/-- C2: refuted on the code.  Two log_learning_session calls for the same
(user, skill) leave two detailed_progress rows for that pair, not one:
the table has only an AUTOINCREMENT primary key, so INSERT OR REPLACE
behaves as a plain INSERT and duplicates accumulate. -/
theorem C2_duplicate_records_bug :
    (logTwice.detailed_progress.filter
      (fun r => r.user_id == "u1" && r.skill_name == "Python")).length = 2 := by
  decide

/-- C3 counterexample: log_learning_session with non-positive minutes or
an empty skill does not reject — it mutates the session log (the claim
says it raises ValidationError and leaves state unchanged). -/
theorem C3_counterexample :
    (log_learning_session initialDB "u1" "Python" 0 "").learning_sessions ≠
        initialDB.learning_sessions ∧
    (log_learning_session initialDB "u1" "" 10 "").learning_sessions ≠
        initialDB.learning_sessions := by
  decide

/-- C3 amended: log_learning_session performs no input validation.  A call
with an empty skill name or with minutes ≤ 0 succeeds like any other call,
appending one session row and one detailed_progress row. -/
theorem C3_no_validation (db : DB) (u s : String) (m : Int) (note : String)
    (h : s = "" ∨ m ≤ 0) :
    (log_learning_session db u s m note).learning_sessions.length =
        db.learning_sessions.length + 1 ∧
    (log_learning_session db u s m note).detailed_progress.length =
        db.detailed_progress.length + 1 := by
  constructor <;> simp [log_learning_session]

theorem C3_no_validation_witness :
    (log_learning_session initialDB "u1" "Python" 0 "").learning_sessions.length =
        initialDB.learning_sessions.length + 1 ∧
    (log_learning_session initialDB "u1" "Python" 0 "").detailed_progress.length =
        initialDB.detailed_progress.length + 1 :=
  C3_no_validation initialDB "u1" "Python" 0 "" (Or.inr (by decide))

/-- C4 counterexample: after one update_course_progress call with 100 the
sole matching record carries completion timestamp 0; a second identical
call re-stamps it (and the newly inserted duplicate) with the later time 1,
so the timestamp recorded by the first call is changed by the second. -/
theorem C4_counterexample :
    completeOnce.detailed_progress.map (fun r => r.completion_date) = [some 0] ∧
    completeTwice.detailed_progress.map (fun r => r.completion_date) =
      [some 1, some 1] := by
  decide

/-- C4 amended: the completion timestamp is not set exactly once — every
update_course_progress call with percentage ≥ 100 overwrites the
completion timestamp of every (user, skill, course)-matching record with
the current time, so a repeated call with 100 replaces the earlier stamp
with the later call's time. -/
theorem C4_overwrite (db : DB) (u s c : String) (p : Int) (note : String)
    (r : ProgressRecord) (hp : p ≥ 100)
    (hr : r ∈ (update_course_progress db u s c p note).detailed_progress)
    (hm : r.user_id = u ∧ r.skill_name = s ∧ r.course_name = some c) :
    r.completion_date = some db.clock := by
  rw [ucp_detailed, if_pos hp] at hr
  obtain ⟨x, hx, rfl⟩ := List.mem_map.mp hr
  obtain ⟨h1, h2, h3⟩ := hm
  rw [stampCompletion_user] at h1
  rw [stampCompletion_skill] at h2
  rw [stampCompletion_course] at h3
  have hc : (x.user_id == u && x.skill_name == s && x.course_name == some c) = true := by
    simp [h1, h2, h3]
  rw [stampCompletion, if_pos hc]

theorem C4_overwrite_witness :
    ({ rid := 1, user_id := "u1", skill_name := "Python",
       course_name := some "Intro", progress_percentage := 100,
       time_spent_minutes := 0, last_activity := 0, completion_date := some 0,
       note := some "" } : ProgressRecord).completion_date =
      some initialDB.clock :=
  C4_overwrite initialDB "u1" "Python" "Intro" 100 "" _ (by decide) (by decide)
    (by decide)

/-- C7: refuted on the code.  The cumulative-minutes value observable for
("u1", "Python") through the query surface is 120 after the sessions 90
and 30, but drops to 100 after a further 10-minute session: the duplicate
rows make the aggregation read the stale oldest row, so the observable
value is not monotonically non-decreasing. -/
theorem C7_monotonicity_bug :
    observedMinutes logTwice "u1" "Python" = some 120 ∧
    observedMinutes logThrice "u1" "Python" = some 100 := by
  decide

/-! Section: Achievement granting -/

/-- Repeated invocation of the achievement granter. -/
def iterateGrant (u s : String) : Nat → DB → DB
  | 0, db => db
  | Nat.succ n, db => iterateGrant u s n (check_and_award_achievements db u s)

/-- Number of stored achievements with the given name for the given user. -/
def achievementCount (db : DB) (u nm : String) : Nat :=
  (db.achievements.filter
    (fun a => a.user_id == u && a.achievement_name == nm)).length

theorem claimPred_of_grantPred (u s : String) (a : AchievementRow)
    (h : grantPred u s a = true) :
    (a.user_id == u && a.achievement_name == awardName s) = true := by
  simp only [grantPred, Bool.and_eq_true] at h
  simp [h.1.1, h.2]

theorem grantCount_zero (db : DB) (u s : String)
    (h0 : achievementCount db u (awardName s) = 0) :
    (db.achievements.filter (grantPred u s)).length = 0 := by
  rw [achievementCount, List.length_eq_zero, List.filter_eq_nil_iff] at h0
  rw [List.length_eq_zero, List.filter_eq_nil_iff]
  intro a ha hga
  exact h0 a ha (claimPred_of_grantPred u s a hga)

theorem grant_stable (db : DB) (u s : String)
    (h : (db.achievements.filter (grantPred u s)).length ≠ 0) :
    check_and_award_achievements db u s = db := by
  rw [check_and_award_achievements, if_neg h]

theorem iterateGrant_stable (u s : String) (n : Nat) (db : DB)
    (h : (db.achievements.filter (grantPred u s)).length ≠ 0) :
    iterateGrant u s n db = db := by
  induction n with
  | zero => rfl
  | succ m ih =>
    simp only [iterateGrant]
    rw [grant_stable db u s h]
    exact ih

theorem grant_inserts (db : DB) (u s : String)
    (h0 : achievementCount db u (awardName s) = 0) :
    achievementCount (check_and_award_achievements db u s) u (awardName s) = 1 ∧
    ((check_and_award_achievements db u s).achievements.filter
        (grantPred u s)).length ≠ 0 := by
  have hg := grantCount_zero db u s h0
  rw [check_and_award_achievements, if_pos hg]
  constructor
  · rw [achievementCount] at h0
    show ((db.achievements ++ [awardRow db u s]).filter
        (fun a => a.user_id == u && a.achievement_name == awardName s)).length = 1
    rw [List.filter_append, List.length_append, h0]
    have he : ([awardRow db u s].filter
        (fun a => a.user_id == u && a.achievement_name == awardName s)) =
        [awardRow db u s] := by
      simp [awardRow]
    rw [he]
    rfl
  · show ((db.achievements ++ [awardRow db u s]).filter (grantPred u s)).length ≠ 0
    rw [List.filter_append, List.length_append]
    have he : ([awardRow db u s].filter (grantPred u s)) = [awardRow db u s] := by
      simp [awardRow, grantPred]
    rw [he]
    simp

/-- C5: achievement granting is idempotent.  From any state holding no
achievement named for the skill, any positive number of granter calls
leaves exactly one stored achievement with that name for the user; and
after update_course_progress("u1","Python","Intro",100,""), the
achievements reported for "u1" are exactly one entry named
"Completed Python". -/
theorem C5_grant_idempotent (db : DB) (u s : String) (n : Nat)
    (h0 : achievementCount db u (awardName s) = 0) (hn : 1 ≤ n) :
    achievementCount (iterateGrant u s n db) u (awardName s) = 1 ∧
    (get_achievements (update_course_progress initialDB "u1" "Python" "Intro" 100 "")
        "u1").map (fun a => a.achievement_name) = ["Completed Python"] := by
  constructor
  · obtain ⟨m, rfl⟩ : ∃ m, n = m + 1 := ⟨n - 1, by omega⟩
    simp only [iterateGrant]
    obtain ⟨h1, h2⟩ := grant_inserts db u s h0
    rw [iterateGrant_stable u s m _ h2]
    exact h1
  · decide

theorem C5_grant_idempotent_witness :
    achievementCount (iterateGrant "u1" "Python" 3 initialDB) "u1"
        (awardName "Python") = 1 ∧
    (get_achievements (update_course_progress initialDB "u1" "Python" "Intro" 100 "")
        "u1").map (fun a => a.achievement_name) = ["Completed Python"] :=
  C5_grant_idempotent initialDB "u1" "Python" 3 (by decide) (by decide)

/-- C6: the status computed by update_course_progress is a total function
of the percentage: not_started for p ≤ 0, in_progress for 0 < p < 100,
completed for p ≥ 100. -/
theorem C6_derive_status_total (p : Int) :
    (p ≤ 0 → deriveStatus p = "not_started") ∧
    (0 < p → p < 100 → deriveStatus p = "in_progress") ∧
    (100 ≤ p → deriveStatus p = "completed") := by
  refine ⟨?_, ?_, ?_⟩
  · intro h
    rw [deriveStatus, if_neg (by omega), if_neg (by omega)]
  · intro h1 h2
    rw [deriveStatus, if_neg (by omega), if_pos h1]
  · intro h
    rw [deriveStatus, if_pos (by omega)]

theorem C6_derive_status_total_witness :
    deriveStatus (-5) = "not_started" ∧ deriveStatus 50 = "in_progress" ∧
      deriveStatus 100 = "completed" :=
  ⟨(C6_derive_status_total (-5)).1 (by decide),
   (C6_derive_status_total 50).2.1 (by decide) (by decide),
   (C6_derive_status_total 100).2.2 (by decide)⟩

/-- C8 counterexample: update_course_progress with percentage 150 persists
a record holding 150, outside [0,100] — there is no clamping and no
rejection. -/
theorem C8_counterexample :
    (update_course_progress initialDB "u1" "SQL" "Course" 150
        "").detailed_progress.map (fun r => r.progress_percentage) = [150] := by
  decide

/-- C8 amended: update_course_progress stores the given percentage
unchanged.  Even for out-of-range input the new record carries exactly the
argument value, and the percentages of all previously stored records are
untouched. -/
theorem C8_store_as_given (db : DB) (u s c : String) (p : Int) (note : String)
    (h : 100 < p ∨ p < 0) :
    (update_course_progress db u s c p note).detailed_progress.map
        (fun r => r.progress_percentage) =
      db.detailed_progress.map (fun r => r.progress_percentage) ++ [p] := by
  rw [ucp_detailed]
  split
  · rw [List.map_map]
    have hcomp : ((fun r => r.progress_percentage) ∘
        stampCompletion u s c db.clock) =
        fun r : ProgressRecord => r.progress_percentage := by
      funext r
      exact stampCompletion_pct u s c db.clock r
    rw [hcomp, List.map_append]
    rfl
  · rw [List.map_append]
    rfl

theorem C8_store_as_given_witness :
    (update_course_progress initialDB "u1" "SQL" "Course" 150
        "").detailed_progress.map (fun r => r.progress_percentage) =
      initialDB.detailed_progress.map (fun r => r.progress_percentage) ++ [150] :=
  C8_store_as_given initialDB "u1" "SQL" "Course" 150 "" (Or.inl (by decide))

/-- C9: update_course_progress has last-write-wins overwrite semantics.
After setting percentage p1 and then p2 for the same (user, skill), the
most-recently-active record — the one get_detailed_progress lists first —
carries exactly p2, not p1 + p2. -/
theorem C9_last_write_wins (db : DB) (u s c1 c2 : String) (p1 p2 : Int)
    (n1 n2 : String) (h : clockFresh db) :
    ((get_detailed_progress
        (update_course_progress (update_course_progress db u s c1 p1 n1)
          u s c2 p2 n2) u).head?.map
      (fun r => r.progress_percentage)) = some p2 := by
  have h1 : clockFresh (update_course_progress db u s c1 p1 n1) :=
    clockFresh_ucp db u s c1 p1 n1 h
  set db1 := update_course_progress db u s c1 p1 n1 with hdb1
  set db2 := update_course_progress db1 u s c2 p2 n2 with hdb2
  obtain ⟨hd, hh, hpd⟩ := sortByDesc_head_eq (fun r => r.last_activity)
      (db2.detailed_progress.filter (fun r => r.user_id == u)) db1.clock
      (fun r => r.progress_percentage = p2)
      (fun y hy => ucp_la_bound db1 u s c2 p2 n2 h1 y (List.mem_filter.mp hy).1)
      (fun y hy hk =>
        (ucp_la_top db1 u s c2 p2 n2 h1 y (List.mem_filter.mp hy).1 hk).1)
      (by
        obtain ⟨r, hr, hu, hp2, hla⟩ := ucp_new_row db1 u s c2 p2 n2
        exact ⟨r, List.mem_filter.mpr ⟨hr, by simp [hu]⟩, hla⟩)
  rw [get_detailed_progress, hh, Option.map_some', hpd]

theorem C9_last_write_wins_witness :
    ((get_detailed_progress
        (update_course_progress (update_course_progress initialDB "u1" "SQL" "" 50 "")
          "u1" "SQL" "" 30 "") "u1").head?.map
      (fun r => r.progress_percentage)) = some 30 :=
  C9_last_write_wins initialDB "u1" "SQL" "" "" 50 30 "" "" clockFresh_initial

/-- C10: every update_course_progress call writes the derived status into
the status column of every learning_plans row matching (user, skill) —
and only into that column of those rows — while leaving the
learning_sessions relation unchanged, and, whenever the percentage stays
below 100, the achievements relation unchanged as well. -/
theorem C10_plan_status_frame (db : DB) (u s c : String) (p : Int)
    (note : String) :
    (update_course_progress db u s c p note).learning_plans =
      db.learning_plans.map (setPlanStatus u s (deriveStatus p)) ∧
    (update_course_progress db u s c p note).learning_sessions =
      db.learning_sessions ∧
    (p < 100 →
      (update_course_progress db u s c p note).achievements = db.achievements) :=
  ⟨ucp_plans db u s c p note, ucp_sessions db u s c p note,
   fun hp => ucp_achievements_lt db u s c p note hp⟩

/-- A database carrying two learning-plan rows, one matching ("u1",
"Python") and one for another user. -/
def planDB : DB :=
  { initialDB with learning_plans :=
      [{ user_id := "u1", skill_name := "Python", status := "not_started",
         rest := "row one" },
       { user_id := "u2", skill_name := "Python", status := "in_progress",
         rest := "row two" }] }

theorem C10_plan_status_frame_witness :
    (update_course_progress planDB "u1" "Python" "Intro" 50 "").learning_plans =
      planDB.learning_plans.map (setPlanStatus "u1" "Python" (deriveStatus 50)) ∧
    (update_course_progress planDB "u1" "Python" "Intro" 50 "").learning_sessions =
      planDB.learning_sessions ∧
    (update_course_progress planDB "u1" "Python" "Intro" 50 "").achievements =
      planDB.achievements :=
  ⟨(C10_plan_status_frame planDB "u1" "Python" "Intro" 50 "").1,
   (C10_plan_status_frame planDB "u1" "Python" "Intro" 50 "").2.1,
   (C10_plan_status_frame planDB "u1" "Python" "Intro" 50 "").2.2 (by decide)⟩

end AIcoach
